import Mathlib

/-!
Verification of the repmgr `dbutils.c` module: a shallow embedding of the
conninfo parameter-list operations (`param_set`, `param_get`,
`parse_conninfo_string`), the liveness probe (`is_standby`), the node-record
upstream-id resolution (`create_node_record` / `update_node_record`), and the
primary-discovery loop (`get_master_connection`), together with theorems about
the behaviour of those operations.

Database driver calls (libpq) are modelled by explicit result values: a query
returns a status and a table of rows; a connection attempt is identified by the
conninfo string used and an environment says whether it reaches
`CONNECTION_OK` and what the recovery probe on it returns.
-/

/- ===================== result (PGresult) model ===================== -/

/-- Status of an executed statement, as reported by the driver
(`PQresultStatus`). Only the distinctions the code inspects are kept. -/
inductive QueryStatus where
  | tuplesOK
  | commandOK
  | queryError
deriving DecidableEq

/-- A driver result set: a status plus the returned rows (each row a list of
column values, as text, the way `PQgetvalue` exposes them). -/
structure PGres where
  status : QueryStatus
  rows : List (List String)
deriving DecidableEq

/-- `PQntuples`: number of rows in a result set. -/
def PQntuples (res : PGres) : Nat := res.rows.length

/-- `PQgetvalue res row col`: the text of a cell; out-of-range access is
modelled as the empty string (the code only reads cells it has checked). -/
def PQgetvalue (res : PGres) (row col : Nat) : String :=
  (res.rows.getD row []).getD col ""

/-- C `atoi` on the well-formed integer strings the queries return. -/
def atoi (s : String) : Int := (s.toInt?).getD 0

/-- Sentinel for "no node found", from repmgr.h (the header is not under
src/); only its identity as a distinguished value matters here. -/
def NODE_NOT_FOUND : Int := -1

/-- Sentinel for "no upstream node", from repmgr.h (the header is not under
src/); only its identity as a distinguished value matters here. -/
def NO_UPSTREAM_NODE : Int := -1

/- ===================== is_standby (dbutils.c:526-550) ===================== -/

/-- `is_standby(conn)`: runs `SELECT pg_catalog.pg_is_in_recovery()`.
The argument is the result of that query (`none` models a NULL `PGresult`).
Returns -1 when the state cannot be determined, 1 when the single returned
cell is "t", and 0 otherwise (the `result` variable is initialised to 0 and
only the two branches shown change it). -/
def is_standby (res : Option PGres) : Int :=
  match res with
  | none => -1
  | some r =>
      if r.status ≠ QueryStatus.tuplesOK then -1
      else if PQntuples r = 1 ∧ PQgetvalue r 0 0 = "t" then 1
      else 0

/- ============== get_master_node_id (dbutils.c:670-708) ============== -/

/-- `get_master_node_id(conn)`: result of
`SELECT node_id FROM repmgr.nodes WHERE type = 'master' AND active IS TRUE`,
passed in as a result set. Returns `NODE_NOT_FOUND` on query failure or zero
rows, else the first row's id. -/
def get_master_node_id (res : PGres) : Int :=
  if res.status ≠ QueryStatus.tuplesOK then NODE_NOT_FOUND
  else if PQntuples res = 0 then NODE_NOT_FOUND
  else atoi (PQgetvalue res 0 0)

/- ========== candidate query of get_master_connection (dbutils.c:593-599) ========== -/

/-- A row of the `repmgr.nodes` relation, restricted to the columns the
candidate query touches. -/
structure NodeRow where
  node_id : Int
  type : String
  conninfo : String
  priority : Int
  active : Bool
deriving DecidableEq

/-- The `CASE WHEN type = 'master' THEN 1 ELSE 2 END` key of the candidate
query. -/
def type_priority (t : String) : Int := if t = "master" then 1 else 2

/-- Sort key for `active DESC`: active rows first. -/
def activeKey (b : Bool) : Int := if b then 0 else 1

/-- The comparison realised by
`ORDER BY active DESC, type_priority, priority, node_id`:
lexicographic on (active descending, type_priority, priority, node_id). -/
def candLe (a b : NodeRow) : Bool :=
  decide (activeKey a.active < activeKey b.active) ||
  (decide (activeKey a.active = activeKey b.active) &&
    (decide (type_priority a.type < type_priority b.type) ||
     (decide (type_priority a.type = type_priority b.type) &&
       (decide (a.priority < b.priority) ||
        (decide (a.priority = b.priority) && decide (a.node_id ≤ b.node_id))))))

/-- `candLe` as a relation. -/
def candLeR (a b : NodeRow) : Prop := candLe a b = true

instance : DecidableRel candLeR := fun a b => instDecidableEqBool (candLe a b) true

instance : IsTotal NodeRow candLeR := by
  constructor
  intro a b
  simp only [candLeR, candLe, Bool.or_eq_true, Bool.and_eq_true, decide_eq_true_eq]
  omega

instance : IsTrans NodeRow candLeR := by
  constructor
  intro a b c
  simp only [candLeR, candLe, Bool.or_eq_true, Bool.and_eq_true, decide_eq_true_eq]
  omega

/-- The candidate list of `get_master_connection`:
`SELECT ... FROM repmgr.nodes WHERE type != 'witness' ORDER BY active DESC,
type_priority, priority, node_id`.  With `node_id` (the primary key) as the
final component the order is total, so any correct sort realises the ORDER BY
deterministically. -/
def candidateQuery (nodes : List NodeRow) : List NodeRow :=
  List.insertionSort candLeR (nodes.filter (fun r => r.type != "witness"))

/- ========== get_master_connection probing loop (dbutils.c:564-659) ========== -/

/-- `strncpy(remote_conninfo, PQgetvalue(res, i, 1), MAXCONNINFO)`: the copy
into the caller's buffer keeps at most `MAXCONNINFO` characters.
`MAXCONNINFO` itself comes from a header not under src/; only its role as the
truncation bound matters. -/
def MAXCONNINFO : Nat := 1024

/-- Truncation performed by the `strncpy` into the conninfo buffer. -/
def truncConninfo (s : String) : String := ⟨s.data.take MAXCONNINFO⟩

/-- Behaviour of the remote cluster, keyed by the (truncated) conninfo string
a connection is opened with: whether `PQstatus` reaches `CONNECTION_OK`, and
the result of the recovery-probe query on that connection (`none` models a
NULL `PGresult`). -/
structure Env where
  connOK : String → Bool
  probeRes : String → Option PGres

/-- Instrumented trace of the probing loop of `get_master_connection`:
the winning candidate (if any), the candidates examined (a connection object
is created by `PQconnectdb` for every examined candidate, including failed
attempts), the candidates actually probed with `is_standby`, the candidates
whose connection was closed with `PQfinish`, and the final contents of the
caller's conninfo buffer (`none` = no output buffer supplied). -/
structure GMCTrace where
  win : Option NodeRow
  examined : List NodeRow
  probed : List NodeRow
  closed : List NodeRow
  buffer : Option String
deriving DecidableEq

/-- The `for (i = 0; i < PQntuples(res); i++)` loop of
`get_master_connection` (dbutils.c:614-655), one iteration per candidate row:
copy the conninfo into the buffer (truncated), connect; on bad status
`continue` (note: without `PQfinish`); probe with `is_standby`; on -1 close
and continue; on 0 return this connection; else close and continue. -/
def gmcRun (env : Env) (buf : Option String) : List NodeRow → GMCTrace
  | [] => { win := none, examined := [], probed := [], closed := [], buffer := buf }
  | r :: rest =>
    let rc := truncConninfo r.conninfo
    let buf1 := buf.map fun _ => rc
    match env.connOK rc with
    | false =>
      let t := gmcRun env buf1 rest
      { t with examined := r :: t.examined }
    | true =>
      let s := is_standby (env.probeRes rc)
      if s = -1 then
        let t := gmcRun env buf1 rest
        { t with examined := r :: t.examined, probed := r :: t.probed,
                 closed := r :: t.closed }
      else if s = 0 then
        { win := some r, examined := [r], probed := [r], closed := [], buffer := buf1 }
      else
        let t := gmcRun env buf1 rest
        { t with examined := r :: t.examined, probed := r :: t.probed,
                 closed := r :: t.closed }

/-- Observable outcome of `get_master_connection`. `conn` is the returned
connection, identified by the candidate row it was opened for (`none` = the
function returned NULL); `masterId` is the caller's `*master_id` after the
call (`none` = the caller passed a null pointer). -/
structure GMCResult where
  conn : Option NodeRow
  masterId : Option Int
  buffer : Option String
  examined : List NodeRow
  probed : List NodeRow
  closed : List NodeRow
deriving DecidableEq

/-- `get_master_connection(conn, master_id, master_conninfo_out)`
(dbutils.c:564-659). `nodesQueryOK` is whether the candidate query returned
`PGRES_TUPLES_OK`; `hasMasterId` is whether `master_id` is non-null; `buf0`
is the initial contents of `master_conninfo_out` (`none` = null pointer).
`*master_id` is set to `NODE_NOT_FOUND` on entry, the candidate list is
fetched and probed in order, and on a winner its `node_id` is stored. -/
def get_master_connection (env : Env) (nodes : List NodeRow) (nodesQueryOK : Bool)
    (hasMasterId : Bool) (buf0 : Option String) : GMCResult :=
  let masterId0 : Option Int := if hasMasterId then some NODE_NOT_FOUND else none
  match nodesQueryOK with
  | false =>
    { conn := none, masterId := masterId0, buffer := buf0,
      examined := [], probed := [], closed := [] }
  | true =>
    let t := gmcRun env buf0 (candidateQuery nodes)
    match t.win with
    | some r =>
      { conn := some r,
        masterId := if hasMasterId then some r.node_id else none,
        buffer := t.buffer, examined := t.examined, probed := t.probed,
        closed := t.closed }
    | none =>
      { conn := none, masterId := masterId0, buffer := t.buffer,
        examined := t.examined, probed := t.probed, closed := t.closed }

/- ============== conninfo parameter lists (dbutils.c:195-365) ============== -/

/-- `t_conninfo_param_list`: two parallel arrays of `size` slots holding a
used prefix of `(keyword, value)` pairs (a NULL keyword marks the end of the
used prefix); modelled as the capacity plus the list of used pairs. -/
structure t_conninfo_param_list where
  size : Nat
  entries : List (String × String)
deriving DecidableEq

/-- The scan-and-store loop of `param_set` (dbutils.c:247-288).  The first
argument is the number of slots not yet scanned (`size - c`); the loop stops
when it hits the end of the used prefix (append if a slot remains) or when
`c` reaches `size` (silently store nothing). -/
def param_set_go (param value : String) : Nat → List (String × String) → List (String × String)
  | 0, entries => entries
  | _ + 1, [] => [(param, value)]
  | cap + 1, (k, v) :: rest =>
      if k = param then (k, value) :: rest
      else (k, v) :: param_set_go param value cap rest

/-- `param_set(param_list, param, value)`: overwrite the value of an existing
keyword, else append; silently does nothing when the fixed-size array is
full. -/
def param_set (param_list : t_conninfo_param_list) (param value : String) :
    t_conninfo_param_list :=
  { param_list with entries := param_set_go param value param_list.size param_list.entries }

/-- The scan loop of `param_get` (dbutils.c:291-308); first argument as in
`param_set_go`.  A found keyword yields its value only when that value is
non-NULL and non-empty (stored values are never NULL in this model). -/
def param_get_go (param : String) : Nat → List (String × String) → Option String
  | 0, _ => none
  | _ + 1, [] => none
  | cap + 1, (k, v) :: rest =>
      if k = param then (if v ≠ "" then some v else none)
      else param_get_go param cap rest

/-- `param_get(param_list, param)`: the stored value of `param`, or `none`
(NULL) when the keyword is missing or its stored value is empty. -/
def param_get (param_list : t_conninfo_param_list) (param : String) : Option String :=
  param_get_go param param_list.size param_list.entries

/- ============ parse_conninfo_string (dbutils.c:316-342) ============ -/

/-- Outcome of the driver's `PQconninfoParse(conninfo_str, &errmsg)`:
the option array (`none` models a NULL return on parse failure, each option
value is `none` when unset) and the diagnostic text the driver writes through
the second argument. -/
structure PQconninfoParseOutcome where
  connOptions : Option (List (String × Option String))
  errmsgOut : Option String

/-- `parse_conninfo_string(conninfo_str, param_list, errmsg, ignore_application_name)`
(dbutils.c:316-342).  The C parameter `errmsg` is a `char *` received by
value: `PQconninfoParse(conninfo_str, &errmsg)` overwrites only the callee's
local copy of the pointer, which is modelled by binding the driver's
diagnostic to a local that escapes nowhere.  Returns the success flag and the
updated parameter list. -/
def parse_conninfo_string (driver : PQconninfoParseOutcome)
    (param_list : t_conninfo_param_list) (errmsg : Option String)
    (ignore_application_name : Bool) : Bool × t_conninfo_param_list :=
  let _localErrmsg : Option String := driver.errmsgOut
  let _callerCopy : Option String := errmsg
  match driver.connOptions with
  | none => (false, param_list)
  | some connOptions =>
      (true,
       connOptions.foldl
         (fun pl opt =>
           match opt.2 with
           | none => pl
           | some v =>
               if v = "" then pl
               else if ignore_application_name && (opt.1 == "application_name") then pl
               else param_set pl opt.1 v)
         param_list)

/-- The parse-failure check of `establish_db_connection_as_user`
(dbutils.c:112-139): `char *errmsg = NULL;` then
`parse_conninfo_string(conninfo, &conninfo_params, errmsg, true)`; on failure
the function logs `errmsg` and returns NULL.  The result is
`some loggedErrmsg` when the parse failed (what the caller's `errmsg`
variable holds at the log call), and `none` when the parse succeeded. -/
def establish_db_connection_as_user_parse_failure (driver : PQconninfoParseOutcome)
    (conninfo_params : t_conninfo_param_list) : Option (Option String) :=
  let errmsg : Option String := none
  let parse_result := parse_conninfo_string driver conninfo_params errmsg true
  match parse_result.1 with
  | false => some errmsg
  | true => none

/- ===== upstream-id resolution of create/update_node_record (dbutils.c:857-1023) ===== -/

/-- `t_server_type` from repmgr.h (values as produced by `parse_node_type`,
dbutils.c:784-805). -/
inductive t_server_type where
  | MASTER
  | STANDBY
  | WITNESS
  | BDR
  | UNKNOWN
deriving DecidableEq

/-- `parse_node_type` (dbutils.c:784-805). -/
def parse_node_type (type : String) : t_server_type :=
  if type = "master" then .MASTER
  else if type = "standby" then .STANDBY
  else if type = "witness" then .WITNESS
  else if type = "bdr" then .BDR
  else .UNKNOWN

/-- The fields of `t_node_info` consulted by the upstream-id resolution. -/
structure t_node_info where
  node_id : Int
  type : t_server_type
  upstream_node_id : Int
  priority : Int
  active : Bool
deriving DecidableEq

/-- The `upstream_node_id` SQL fragment built by `create_node_record`
(dbutils.c:865-884): for the absent sentinel on a standby, substitute the id
returned by `get_master_node_id(conn)` (passed in as `primary_node_id`); for
the absent sentinel on any other type, the literal NULL; otherwise the given
id. -/
def create_node_record_upstream (node_info : t_node_info) (primary_node_id : Int) : String :=
  if node_info.upstream_node_id = NO_UPSTREAM_NODE then
    if node_info.type = t_server_type.STANDBY then toString primary_node_id
    else "NULL"
  else toString node_info.upstream_node_id

/-- The `upstream_node_id` SQL fragment built by `update_node_record`
(dbutils.c:948-967); the segment is copied verbatim from
`create_node_record`. -/
def update_node_record_upstream (node_info : t_node_info) (primary_node_id : Int) : String :=
  if node_info.upstream_node_id = NO_UPSTREAM_NODE then
    if node_info.type = t_server_type.STANDBY then toString primary_node_id
    else "NULL"
  else toString node_info.upstream_node_id

lemma gmcRun_cons_connfail (env : Env) (buf : Option String) (r : NodeRow) (rest : List NodeRow)
    (hc : env.connOK (truncConninfo r.conninfo) = false) :
    gmcRun env buf (r :: rest) =
      { gmcRun env (buf.map fun _ => truncConninfo r.conninfo) rest with
        examined := r :: (gmcRun env (buf.map fun _ => truncConninfo r.conninfo) rest).examined } := by
  simp only [gmcRun, hc]

lemma gmcRun_cons_continue (env : Env) (buf : Option String) (r : NodeRow) (rest : List NodeRow)
    (hc : env.connOK (truncConninfo r.conninfo) = true)
    (hs : is_standby (env.probeRes (truncConninfo r.conninfo)) ≠ 0) :
    gmcRun env buf (r :: rest) =
      { gmcRun env (buf.map fun _ => truncConninfo r.conninfo) rest with
        examined := r :: (gmcRun env (buf.map fun _ => truncConninfo r.conninfo) rest).examined,
        probed := r :: (gmcRun env (buf.map fun _ => truncConninfo r.conninfo) rest).probed,
        closed := r :: (gmcRun env (buf.map fun _ => truncConninfo r.conninfo) rest).closed } := by
  simp only [gmcRun, hc]
  by_cases h1 : is_standby (env.probeRes (truncConninfo r.conninfo)) = -1
  · simp [h1]
  · simp [h1, hs]

lemma gmcRun_cons_winner (env : Env) (buf : Option String) (r : NodeRow) (rest : List NodeRow)
    (hc : env.connOK (truncConninfo r.conninfo) = true)
    (hs : is_standby (env.probeRes (truncConninfo r.conninfo)) = 0) :
    gmcRun env buf (r :: rest) =
      { win := some r, examined := [r], probed := [r], closed := [],
        buffer := buf.map fun _ => truncConninfo r.conninfo } := by
  have h1 : is_standby (env.probeRes (truncConninfo r.conninfo)) ≠ -1 := by
    rw [hs]; decide
  simp only [gmcRun, hc]
  simp [h1, hs]

lemma gmcRun_examined_spec (env : Env) :
    ∀ (cands : List NodeRow) (buf : Option String),
      ∃ post, cands = (gmcRun env buf cands).examined ++ post ∧
        ((gmcRun env buf cands).win = none → post = []) ∧
        (∀ r, (gmcRun env buf cands).win = some r →
          ∃ q, (gmcRun env buf cands).examined = q ++ [r]) := by
  intro cands
  induction cands with
  | nil =>
      intro buf
      refine ⟨[], rfl, fun _ => rfl, fun r hr => ?_⟩
      simp [gmcRun] at hr
  | cons r rest ih =>
      intro buf
      cases hc : env.connOK (truncConninfo r.conninfo) with
      | false =>
          obtain ⟨post, h1, h2, h3⟩ := ih (buf.map fun _ => truncConninfo r.conninfo)
          rw [gmcRun_cons_connfail env buf r rest hc]
          refine ⟨post, ?_, h2, ?_⟩
          · simpa using congrArg (List.cons r) h1
          · intro w hw
            obtain ⟨q, hq⟩ := h3 w hw
            exact ⟨r :: q, by simp [hq]⟩
      | true =>
          by_cases hs : is_standby (env.probeRes (truncConninfo r.conninfo)) = 0
          · rw [gmcRun_cons_winner env buf r rest hc hs]
            refine ⟨rest, rfl, fun h => by simp at h, fun w hw => ?_⟩
            refine ⟨[], ?_⟩
            simp only [Option.some.injEq] at hw
            simp [hw]
          · obtain ⟨post, h1, h2, h3⟩ := ih (buf.map fun _ => truncConninfo r.conninfo)
            rw [gmcRun_cons_continue env buf r rest hc hs]
            refine ⟨post, ?_, h2, ?_⟩
            · simpa using congrArg (List.cons r) h1
            · intro w hw
              obtain ⟨q, hq⟩ := h3 w hw
              exact ⟨r :: q, by simp [hq]⟩

lemma gmcRun_probe_spec (env : Env) :
    ∀ (cands : List NodeRow) (buf : Option String),
      (∀ x ∈ (gmcRun env buf cands).closed,
          is_standby (env.probeRes (truncConninfo x.conninfo)) ≠ 0) ∧
      ((gmcRun env buf cands).win = none →
          (gmcRun env buf cands).probed = (gmcRun env buf cands).closed) ∧
      (gmcRun env buf cands).probed.Sublist (gmcRun env buf cands).examined ∧
      (∀ r, (gmcRun env buf cands).win = some r →
          env.connOK (truncConninfo r.conninfo) = true ∧
          is_standby (env.probeRes (truncConninfo r.conninfo)) = 0) := by
  intro cands
  induction cands with
  | nil =>
      intro buf
      refine ⟨by simp [gmcRun], fun _ => rfl, by simp [gmcRun], fun r hr => ?_⟩
      simp [gmcRun] at hr
  | cons r rest ih =>
      intro buf
      cases hc : env.connOK (truncConninfo r.conninfo) with
      | false =>
          obtain ⟨h1, h2, h3, h4⟩ := ih (buf.map fun _ => truncConninfo r.conninfo)
          rw [gmcRun_cons_connfail env buf r rest hc]
          exact ⟨h1, h2, h3.trans (List.sublist_cons_self r _), h4⟩
      | true =>
          by_cases hs : is_standby (env.probeRes (truncConninfo r.conninfo)) = 0
          · rw [gmcRun_cons_winner env buf r rest hc hs]
            refine ⟨by simp, fun h => by simp at h, by simp, fun w hw => ?_⟩
            simp only [Option.some.injEq] at hw
            subst hw
            exact ⟨hc, hs⟩
          · obtain ⟨h1, h2, h3, h4⟩ := ih (buf.map fun _ => truncConninfo r.conninfo)
            rw [gmcRun_cons_continue env buf r rest hc hs]
            refine ⟨?_, ?_, ?_, h4⟩
            · intro x hx
              rcases List.mem_cons.mp hx with hx | hx
              · subst hx; exact hs
              · exact h1 x hx
            · intro h
              simp only at h
              rw [h2 h]
            · exact h3.cons₂ r

lemma gmcRun_buffer_spec (env : Env) :
    ∀ (cands : List NodeRow) (buf : Option String),
      ((gmcRun env buf cands).examined = [] ∧ (gmcRun env buf cands).buffer = buf) ∨
      (∃ q c, (gmcRun env buf cands).examined = q ++ [c] ∧
        (gmcRun env buf cands).buffer = buf.map fun _ => truncConninfo c.conninfo) := by
  intro cands
  induction cands with
  | nil =>
      intro buf
      exact Or.inl ⟨rfl, rfl⟩
  | cons r rest ih =>
      intro buf
      cases hc : env.connOK (truncConninfo r.conninfo) with
      | false =>
          rw [gmcRun_cons_connfail env buf r rest hc]
          rcases ih (buf.map fun _ => truncConninfo r.conninfo) with ⟨he, hb⟩ | ⟨q, c, he, hb⟩
          · refine Or.inr ⟨[], r, by simp [he], ?_⟩
            rw [hb]
          · refine Or.inr ⟨r :: q, c, by simp [he], ?_⟩
            rw [hb]
            cases buf <;> rfl
      | true =>
          by_cases hs : is_standby (env.probeRes (truncConninfo r.conninfo)) = 0
          · rw [gmcRun_cons_winner env buf r rest hc hs]
            exact Or.inr ⟨[], r, rfl, rfl⟩
          · rw [gmcRun_cons_continue env buf r rest hc hs]
            rcases ih (buf.map fun _ => truncConninfo r.conninfo) with ⟨he, hb⟩ | ⟨q, c, he, hb⟩
            · refine Or.inr ⟨[], r, by simp [he], ?_⟩
              rw [hb]
            · refine Or.inr ⟨r :: q, c, by simp [he], ?_⟩
              rw [hb]
              cases buf <;> rfl

lemma get_master_connection_fields (env : Env) (nodes : List NodeRow)
    (hasMasterId : Bool) (buf0 : Option String) :
    (get_master_connection env nodes true hasMasterId buf0).conn =
      (gmcRun env buf0 (candidateQuery nodes)).win ∧
    (get_master_connection env nodes true hasMasterId buf0).examined =
      (gmcRun env buf0 (candidateQuery nodes)).examined ∧
    (get_master_connection env nodes true hasMasterId buf0).probed =
      (gmcRun env buf0 (candidateQuery nodes)).probed ∧
    (get_master_connection env nodes true hasMasterId buf0).closed =
      (gmcRun env buf0 (candidateQuery nodes)).closed ∧
    (get_master_connection env nodes true hasMasterId buf0).buffer =
      (gmcRun env buf0 (candidateQuery nodes)).buffer ∧
    (get_master_connection env nodes true hasMasterId buf0).masterId =
      (match (gmcRun env buf0 (candidateQuery nodes)).win with
       | some r => if hasMasterId then some r.node_id else none
       | none => if hasMasterId then some NODE_NOT_FOUND else none) := by
  cases h : (gmcRun env buf0 (candidateQuery nodes)).win <;>
    simp [get_master_connection, h]

/-- C1: `get_master_connection` obtains its candidate list by selecting every
registered node whose type is not "witness", ordered by `active` descending,
then the type-priority key that ranks a registry-declared "master" ahead of
all other types, then by configured `priority` ascending, then by `node_id`
ascending as the final tie-break; and the candidates are probed in exactly
that order (the examined candidates form a leading segment of the ordered
list and the probed candidates respect its order). -/
theorem C1_candidate_order (env : Env) (nodes : List NodeRow)
    (hasMasterId : Bool) (buf0 : Option String) :
    List.Sorted candLeR (candidateQuery nodes) ∧
    (candidateQuery nodes).Perm (nodes.filter (fun r => r.type != "witness")) ∧
    (∃ post, candidateQuery nodes =
      (get_master_connection env nodes true hasMasterId buf0).examined ++ post) ∧
    (get_master_connection env nodes true hasMasterId buf0).probed.Sublist
      (candidateQuery nodes) := by
  obtain ⟨hconn, hex, hpr, hcl, hbuf, hmid⟩ :=
    get_master_connection_fields env nodes hasMasterId buf0
  obtain ⟨post, h1, h2, h3⟩ := gmcRun_examined_spec env (candidateQuery nodes) buf0
  obtain ⟨p1, p2, p3, p4⟩ := gmcRun_probe_spec env (candidateQuery nodes) buf0
  refine ⟨List.sorted_insertionSort candLeR _, List.perm_insertionSort candLeR _,
    ⟨post, by rw [hex]; exact h1⟩, ?_⟩
  rw [hpr]
  have hsub : (gmcRun env buf0 (candidateQuery nodes)).probed.Sublist
      ((gmcRun env buf0 (candidateQuery nodes)).examined ++ post) :=
    p3.trans (List.sublist_append_left _ _)
  nth_rewrite 2 [h1]
  exact hsub

/-- C2: as soon as one probed candidate reports "not recovering"
(`is_standby` = 0), `get_master_connection` returns that candidate's
still-open connection (it is never closed), stores its `node_id` into
`*master_id` when `master_id` is non-null and its (truncated) conninfo into
`master_conninfo_out` when supplied, and probes no subsequent candidate: the
examined candidates are a leading segment of the ordered list ending at the
winner. -/
theorem C2_short_circuit_on_first_primary (env : Env) (nodes : List NodeRow)
    (hasMasterId : Bool) (buf0 : Option String) (r : NodeRow)
    (hwin : (get_master_connection env nodes true hasMasterId buf0).conn = some r) :
    is_standby (env.probeRes (truncConninfo r.conninfo)) = 0 ∧
    (hasMasterId = true →
      (get_master_connection env nodes true hasMasterId buf0).masterId = some r.node_id) ∧
    (∀ b, buf0 = some b →
      (get_master_connection env nodes true hasMasterId buf0).buffer =
        some (truncConninfo r.conninfo)) ∧
    (∃ q, (get_master_connection env nodes true hasMasterId buf0).examined = q ++ [r]) ∧
    (∃ post, candidateQuery nodes =
      (get_master_connection env nodes true hasMasterId buf0).examined ++ post) ∧
    r ∉ (get_master_connection env nodes true hasMasterId buf0).closed := by
  obtain ⟨hconn, hex, hpr, hcl, hbuf, hmid⟩ :=
    get_master_connection_fields env nodes hasMasterId buf0
  rw [hconn] at hwin
  obtain ⟨post, h1, h2, h3⟩ := gmcRun_examined_spec env (candidateQuery nodes) buf0
  obtain ⟨p1, p2, p3, p4⟩ := gmcRun_probe_spec env (candidateQuery nodes) buf0
  obtain ⟨q, hq⟩ := h3 r hwin
  have hprobe0 : is_standby (env.probeRes (truncConninfo r.conninfo)) = 0 := (p4 r hwin).2
  refine ⟨hprobe0, ?_, ?_, ⟨q, by rw [hex, hq]⟩, ⟨post, by rw [hex]; exact h1⟩, ?_⟩
  · intro hm
    rw [hmid, hwin, hm]
    simp
  · intro b hb
    rcases gmcRun_buffer_spec env (candidateQuery nodes) buf0 with ⟨he, _⟩ | ⟨q2, c, he, hb2⟩
    · rw [he] at hq
      exact absurd hq.symm (List.append_ne_nil_of_right_ne_nil q (by simp))
    · have hc : c = r := by
        have h5 : some c = some r := by
          rw [← List.getLast?_concat q2, ← he, hq, List.getLast?_concat]
        exact Option.some.inj h5
      rw [hbuf, hb2, hc, hb]
      simp
  · intro hmem
    rw [hcl] at hmem
    exact (p1 r hmem) hprobe0

/-- C3: a per-candidate failure (connection attempt fails, or the liveness
probe cannot determine the recovery state) never aborts
`get_master_connection`: when the function returns NULL every candidate of
the ordered list was examined, `*master_id` is left at `NODE_NOT_FOUND`
(when the pointer was supplied), and every probed candidate reported
something other than "not recovering" — the "no primary found" outcome. -/
theorem C3_per_candidate_failure_nonfatal (env : Env) (nodes : List NodeRow)
    (hasMasterId : Bool) (buf0 : Option String)
    (hnone : (get_master_connection env nodes true hasMasterId buf0).conn = none) :
    (get_master_connection env nodes true hasMasterId buf0).examined =
      candidateQuery nodes ∧
    (get_master_connection env nodes true hasMasterId buf0).masterId =
      (if hasMasterId then some NODE_NOT_FOUND else none) ∧
    (∀ x ∈ (get_master_connection env nodes true hasMasterId buf0).probed,
      is_standby (env.probeRes (truncConninfo x.conninfo)) ≠ 0) := by
  obtain ⟨hconn, hex, hpr, hcl, hbuf, hmid⟩ :=
    get_master_connection_fields env nodes hasMasterId buf0
  rw [hconn] at hnone
  obtain ⟨post, h1, h2, h3⟩ := gmcRun_examined_spec env (candidateQuery nodes) buf0
  obtain ⟨p1, p2, p3, p4⟩ := gmcRun_probe_spec env (candidateQuery nodes) buf0
  refine ⟨?_, ?_, ?_⟩
  · rw [h2 hnone] at h1
    rw [hex]
    simpa using h1.symm
  · rw [hmid, hnone]
  · intro x hx
    rw [hpr, p2 hnone] at hx
    exact p1 x hx

/- concrete instances used by evaluation theorems -/

/-- A registered standby node used in concrete runs. -/
def nodeA : NodeRow :=
  { node_id := 2, type := "standby", conninfo := "host=a", priority := 100, active := true }

/-- A registered node whose connection attempt will fail in `envConnFail`. -/
def nodeB : NodeRow :=
  { node_id := 1, type := "master", conninfo := "host=b", priority := 100, active := true }

/-- Every candidate is reachable and reports "f" (not recovering). -/
def envPrimaryA : Env :=
  { connOK := fun _ => true,
    probeRes := fun _ => some { status := QueryStatus.tuplesOK, rows := [["f"]] } }

/-- Every candidate is reachable and reports "t" (recovering). -/
def envStandbyA : Env :=
  { connOK := fun _ => true,
    probeRes := fun _ => some { status := QueryStatus.tuplesOK, rows := [["t"]] } }

/-- No candidate's connection attempt reaches `CONNECTION_OK`. -/
def envConnFail : Env :=
  { connOK := fun _ => false, probeRes := fun _ => none }

/-- C2 witness: a concrete cluster with one reachable, non-recovering node:
it is returned still open, its id and conninfo are stored, and it ends the
examined list. -/
theorem C2_short_circuit_on_first_primary_witness :
    is_standby (envPrimaryA.probeRes (truncConninfo nodeA.conninfo)) = 0 ∧
    (get_master_connection envPrimaryA [nodeA] true true (some "b")).masterId =
      some nodeA.node_id ∧
    (get_master_connection envPrimaryA [nodeA] true true (some "b")).buffer =
      some (truncConninfo nodeA.conninfo) ∧
    nodeA ∉ (get_master_connection envPrimaryA [nodeA] true true (some "b")).closed :=
  ⟨(C2_short_circuit_on_first_primary envPrimaryA [nodeA] true (some "b") nodeA (by decide)).1,
   (C2_short_circuit_on_first_primary envPrimaryA [nodeA] true (some "b") nodeA (by decide)).2.1 rfl,
   (C2_short_circuit_on_first_primary envPrimaryA [nodeA] true (some "b") nodeA (by decide)).2.2.1 "b" rfl,
   (C2_short_circuit_on_first_primary envPrimaryA [nodeA] true (some "b") nodeA (by decide)).2.2.2.2.2⟩

/-- C3 witness: a concrete cluster whose only node is recovering: the call
returns no primary, every candidate was examined and `*master_id` holds
`NODE_NOT_FOUND`. -/
theorem C3_per_candidate_failure_nonfatal_witness :
    (get_master_connection envStandbyA [nodeA] true true (some "b")).examined =
      candidateQuery [nodeA] ∧
    (get_master_connection envStandbyA [nodeA] true true (some "b")).masterId =
      (if (true : Bool) then some NODE_NOT_FOUND else none) :=
  ⟨(C3_per_candidate_failure_nonfatal envStandbyA [nodeA] true (some "b") (by decide)).1,
   (C3_per_candidate_failure_nonfatal envStandbyA [nodeA] true (some "b") (by decide)).2.1⟩

/-- C4: evaluation at the failing input — a single candidate whose connection
attempt fails (`PQstatus` ≠ CONNECTION_OK).  A connection object is created
for the candidate (it is examined) and the function returns NULL, but the
loop takes the `continue` at dbutils.c:627 without calling `PQfinish`, so no
connection is ever closed: the opened, non-returned connection is leaked,
contradicting the claimed close-everything invariant. -/
theorem C4_connfail_path_leaks :
    (get_master_connection envConnFail [nodeB] true true (some "x")).conn = none ∧
    (get_master_connection envConnFail [nodeB] true true (some "x")).examined = [nodeB] ∧
    (get_master_connection envConnFail [nodeB] true true (some "x")).closed = [] := by
  refine ⟨?_, ?_, ?_⟩ <;> decide

/-- C9: when the liveness-probe query executes successfully but yields an
ambiguous result — a row count other than one, or a first value different
from "t" — `is_standby` returns 0, and a candidate at the head of the
ordered list with such a probe result is accepted as the live primary by
`get_master_connection`. -/
theorem C9_ambiguous_probe_accepted (env : Env) (nodes : List NodeRow)
    (hasMasterId : Bool) (buf0 : Option String) (c : NodeRow) (rest : List NodeRow)
    (res : PGres)
    (hstat : res.status = QueryStatus.tuplesOK)
    (hamb : PQntuples res ≠ 1 ∨ PQgetvalue res 0 0 ≠ "t")
    (hcand : candidateQuery nodes = c :: rest)
    (hconn : env.connOK (truncConninfo c.conninfo) = true)
    (hprobe : env.probeRes (truncConninfo c.conninfo) = some res) :
    is_standby (some res) = 0 ∧
    (get_master_connection env nodes true hasMasterId buf0).conn = some c := by
  have hne : ¬(PQntuples res = 1 ∧ PQgetvalue res 0 0 = "t") := by
    rcases hamb with h | h
    · exact fun hh => h hh.1
    · exact fun hh => h hh.2
  have h0 : is_standby (some res) = 0 := by
    simp [is_standby, hstat, hne]
  have hw : is_standby (env.probeRes (truncConninfo c.conninfo)) = 0 := by
    rw [hprobe]; exact h0
  obtain ⟨hconn2, _⟩ := get_master_connection_fields env nodes hasMasterId buf0
  refine ⟨h0, ?_⟩
  rw [hconn2, hcand, gmcRun_cons_winner env buf0 c rest hconn hw]

/-- C9 witness: a reachable node whose probe query succeeds with zero rows is
accepted as the primary. -/
theorem C9_ambiguous_probe_accepted_witness :
    is_standby (some { status := QueryStatus.tuplesOK, rows := ([] : List (List String)) }) = 0 ∧
    (get_master_connection
      { connOK := fun _ => true,
        probeRes := fun _ => some { status := QueryStatus.tuplesOK, rows := [] } }
      [nodeA] true true (some "b")).conn = some nodeA :=
  C9_ambiguous_probe_accepted
    { connOK := fun _ => true,
      probeRes := fun _ => some { status := QueryStatus.tuplesOK, rows := [] } }
    [nodeA] true (some "b") nodeA []
    { status := QueryStatus.tuplesOK, rows := [] }
    rfl (by decide) (by decide) rfl rfl

/-- C10 counterexample: with a supplied output buffer and an empty candidate
list (no registered non-witness node), `get_master_connection` returns NULL
("no primary found") while the buffer IS left unchanged — contradicting the
claim that on a NULL return the buffer never keeps its previous contents. -/
theorem C10_buffer_unchanged_cex :
    (get_master_connection envConnFail [] true true (some "orig")).conn = none ∧
    (get_master_connection envConnFail [] true true (some "orig")).buffer = some "orig" := by
  refine ⟨?_, ?_⟩ <;> decide

/-- C10 (amended): when a `master_conninfo_out` buffer is supplied, the
buffer is overwritten with each examined candidate's conninfo (truncated to
MAXCONNINFO): after the call it holds the last examined candidate's
truncated conninfo, and it keeps its previous contents exactly when no
candidate was examined. -/
theorem C10_buffer_last_examined (env : Env) (nodes : List NodeRow)
    (hasMasterId : Bool) (b : String) :
    ((get_master_connection env nodes true hasMasterId (some b)).examined = [] →
      (get_master_connection env nodes true hasMasterId (some b)).buffer = some b) ∧
    (∀ q c,
      (get_master_connection env nodes true hasMasterId (some b)).examined = q ++ [c] →
      (get_master_connection env nodes true hasMasterId (some b)).buffer =
        some (truncConninfo c.conninfo)) := by
  obtain ⟨hconn, hex, hpr, hcl, hbuf, hmid⟩ :=
    get_master_connection_fields env nodes hasMasterId (some b)
  rcases gmcRun_buffer_spec env (candidateQuery nodes) (some b) with ⟨he, hb⟩ | ⟨q2, c2, he, hb⟩
  · constructor
    · intro _
      rw [hbuf, hb]
    · intro q c hqc
      rw [hex, he] at hqc
      exact absurd hqc.symm (List.append_ne_nil_of_right_ne_nil q (by simp))
  · constructor
    · intro hq
      rw [hex, he] at hq
      exact absurd hq (List.append_ne_nil_of_right_ne_nil q2 (by simp))
    · intro q c hqc
      rw [hex, he] at hqc
      have hc : c2 = c := by
        have h5 : some c2 = some c := by
          rw [← List.getLast?_concat q2, hqc, List.getLast?_concat]
        exact Option.some.inj h5
      rw [hbuf, hb, hc]
      rfl

/-- C10 witness: after examining one (recovering) candidate and returning
NULL, the supplied buffer holds that candidate's truncated conninfo. -/
theorem C10_buffer_last_examined_witness :
    (get_master_connection envStandbyA [nodeA] true true (some "orig")).buffer =
      some (truncConninfo nodeA.conninfo) :=
  (C10_buffer_last_examined envStandbyA [nodeA] true "orig").2 [] nodeA (by decide)

/- ============== param_set / param_get lemmas ============== -/

lemma param_get_go_absent (k : String) :
    ∀ (es : List (String × String)) (cap : Nat),
      (∀ e ∈ es, e.1 ≠ k) → param_get_go k cap es = none := by
  intro es
  induction es with
  | nil =>
      intro cap _
      cases cap <;> rfl
  | cons e rest ih =>
      intro cap h
      cases cap with
      | zero => rfl
      | succ n =>
          obtain ⟨k0, w⟩ := e
          have hk : k0 ≠ k := h (k0, w) (List.mem_cons_self _ _)
          simp only [param_get_go, if_neg hk]
          exact ih n fun x hx => h x (List.mem_cons_of_mem _ hx)

lemma param_get_go_set_empty (k : String) :
    ∀ (es : List (String × String)) (cap : Nat),
      param_get_go k cap (param_set_go k "" cap es) = none := by
  intro es
  induction es with
  | nil =>
      intro cap
      cases cap with
      | zero => rfl
      | succ n => simp [param_set_go, param_get_go]
  | cons e rest ih =>
      intro cap
      cases cap with
      | zero => rfl
      | succ n =>
          obtain ⟨k0, w⟩ := e
          by_cases hk : k0 = k
          · simp [param_set_go, param_get_go, hk]
          · simp only [param_set_go, if_neg hk, param_get_go]
            exact ih n

lemma param_set_go_mem (k v : String) :
    ∀ (es : List (String × String)) (cap : Nat),
      (es.length < cap ∨ k ∈ es.map Prod.fst) →
      k ∈ (param_set_go k v cap es).map Prod.fst := by
  intro es
  induction es with
  | nil =>
      intro cap h
      cases cap with
      | zero =>
          rcases h with h | h
          · omega
          · simp at h
      | succ n => simp [param_set_go]
  | cons e rest ih =>
      intro cap h
      cases cap with
      | zero =>
          rcases h with h | h
          · omega
          · simpa [param_set_go] using h
      | succ n =>
          obtain ⟨k0, w⟩ := e
          by_cases hk : k0 = k
          · simp [param_set_go, hk]
          · simp only [param_set_go, if_neg hk, List.map_cons, List.mem_cons]
            refine Or.inr (ih n ?_)
            rcases h with h | h
            · exact Or.inl (by simpa using Nat.lt_of_succ_lt_succ h)
            · simp only [List.map_cons, List.mem_cons] at h
              rcases h with h | h
              · exact absurd h.symm hk
              · exact Or.inr h

lemma param_get_go_double_set (k v1 v2 : String) (hv2 : v2 ≠ "") :
    ∀ (es : List (String × String)) (cap : Nat),
      es.length < cap →
      param_get_go k cap (param_set_go k v2 cap (param_set_go k v1 cap es)) = some v2 := by
  intro es
  induction es with
  | nil =>
      intro cap hlen
      cases cap with
      | zero => omega
      | succ n => simp [param_set_go, param_get_go, hv2]
  | cons e rest ih =>
      intro cap hlen
      cases cap with
      | zero => omega
      | succ n =>
          obtain ⟨k0, w⟩ := e
          by_cases hk : k0 = k
          · simp [param_set_go, param_get_go, hk, hv2]
          · simp only [param_set_go, if_neg hk, param_get_go]
            exact ih n (by simpa using Nat.lt_of_succ_lt_succ hlen)

lemma param_set_go_count_one (k v1 v2 : String) :
    ∀ (es : List (String × String)) (cap : Nat),
      es.length < cap → (es.map Prod.fst).Nodup →
      ((param_set_go k v2 cap (param_set_go k v1 cap es)).filter
        (fun e => e.1 == k)).length = 1 := by
  intro es
  induction es with
  | nil =>
      intro cap hlen _
      cases cap with
      | zero => omega
      | succ n => simp [param_set_go]
  | cons e rest ih =>
      intro cap hlen hnd
      cases cap with
      | zero => omega
      | succ n =>
          obtain ⟨k0, w⟩ := e
          simp only [List.map_cons, List.nodup_cons] at hnd
          by_cases hk : k0 = k
          · simp only [param_set_go, if_pos hk]
            have hrest : rest.filter (fun e => e.1 == k) = [] := by
              rw [List.filter_eq_nil_iff]
              intro a ha
              have : a.1 ∈ rest.map Prod.fst := List.mem_map_of_mem Prod.fst ha
              simp only [beq_iff_eq]
              intro hak
              apply hnd.1
              rw [hk, ← hak]
              exact this
            simp [List.filter_cons, hk, hrest]
          · simp only [param_set_go, if_neg hk]
            have : ((param_set_go k v2 n (param_set_go k v1 n rest)).filter
                (fun e => e.1 == k)).length = 1 :=
              ih n (by simpa using Nat.lt_of_succ_lt_succ hlen) hnd.2
            simp [List.filter_cons, hk, this]

/-- C5 counterexample: the claim quantifies over every value `v2`, but for
`v2 = ""` `param_get` returns NULL (absent) rather than the stored value:
after `param_set(list,"user","a"); param_set(list,"user","")` on a list with
spare capacity, `param_get(list,"user")` is not the empty string. -/
theorem C5_overwrite_cex :
    param_get (param_set (param_set { size := 2, entries := [] } "user" "a") "user" "")
      "user" ≠ some "" := by
  decide

/-- C5 (amended): for every param list whose stored keywords are distinct
(the data-model invariant) and which has spare capacity, and every keyword
`k` and values `v1` then `v2`: after `param_set(list,k,v1)` followed by
`param_set(list,k,v2)` the list contains exactly one entry for `k`
(overwrite in place, never a duplicate), and `param_get(list,k)` returns
`v2` whenever `v2` is non-empty (an empty `v2` reads back as absent). -/
theorem C5_overwrite_amended (pl : t_conninfo_param_list) (k v1 v2 : String)
    (hcap : pl.entries.length < pl.size)
    (hnd : (pl.entries.map Prod.fst).Nodup)
    (hv2 : v2 ≠ "") :
    param_get (param_set (param_set pl k v1) k v2) k = some v2 ∧
    (((param_set (param_set pl k v1) k v2).entries.filter
        (fun e => e.1 == k)).length = 1) :=
  ⟨param_get_go_double_set k v1 v2 hv2 pl.entries pl.size hcap,
   param_set_go_count_one k v1 v2 pl.entries pl.size hcap hnd⟩

/-- C5 witness: concrete run of the amended claim. -/
theorem C5_overwrite_amended_witness :
    param_get (param_set (param_set { size := 2, entries := [] } "user" "a") "user" "b")
      "user" = some "b" ∧
    (((param_set (param_set { size := 2, entries := ([] : List (String × String)) }
        "user" "a") "user" "b").entries.filter (fun e => e.1 == "user")).length = 1) :=
  C5_overwrite_amended { size := 2, entries := [] } "user" "a" "b"
    (by decide) (by decide) (by decide)

/-- C6: `param_get(list,k)` returns NULL both when `k` was never set and when
`k` was explicitly set to the empty string; setting to the empty string still
stores an entry for `k` (present-but-empty is distinct in storage, but
indistinguishable from absent on read). -/
theorem C6_empty_reads_absent (pl : t_conninfo_param_list) (k : String) :
    ((∀ e ∈ pl.entries, e.1 ≠ k) → param_get pl k = none) ∧
    param_get (param_set pl k "") k = none ∧
    ((pl.entries.length < pl.size ∨ k ∈ pl.entries.map Prod.fst) →
      k ∈ (param_set pl k "").entries.map Prod.fst) :=
  ⟨fun h => param_get_go_absent k pl.entries pl.size h,
   param_get_go_set_empty k pl.entries pl.size,
   fun h => param_set_go_mem k "" pl.entries pl.size h⟩

/-- C6 witness: concrete run — unset keyword reads absent, keyword set to the
empty string reads absent yet is stored. -/
theorem C6_empty_reads_absent_witness :
    param_get { size := 2, entries := [("host", "x")] } "user" = none ∧
    param_get (param_set { size := 2, entries := [("host", "x")] } "user" "") "user" = none ∧
    "user" ∈ (param_set { size := 2, entries := [("host", "x")] } "user" "").entries.map
      Prod.fst :=
  ⟨(C6_empty_reads_absent { size := 2, entries := [("host", "x")] } "user").1 (by decide),
   (C6_empty_reads_absent { size := 2, entries := [("host", "x")] } "user").2.1,
   (C6_empty_reads_absent { size := 2, entries := [("host", "x")] } "user").2.2 (by decide)⟩

/-- C7: evaluation at the failing input — a malformed connection string (the
driver's `PQconninfoParse` returns NULL together with a diagnostic `diag`).
`parse_conninfo_string` returns failure, but because its `errmsg` parameter
is a `char *` received by value, the driver's diagnostic is written only into
the callee's local copy of the pointer: for every diagnostic, the caller
(`establish_db_connection_as_user`, which initialised `errmsg` to NULL) still
logs NULL, so the diagnostic never reaches the caller, contradicting the
claim that it is propagated through the `errmsg` argument. -/
theorem C7_errmsg_not_propagated :
    (∀ diag : String,
      parse_conninfo_string { connOptions := none, errmsgOut := some diag }
        { size := 2, entries := [] } none true =
        (false, { size := 2, entries := [] })) ∧
    (∀ diag : String,
      establish_db_connection_as_user_parse_failure
        { connOptions := none, errmsgOut := some diag } { size := 2, entries := [] } =
        some none) :=
  ⟨fun _ => rfl, fun _ => rfl⟩

/-- C8: in both `create_node_record` and `update_node_record` uniformly: when
the record's `upstream_node_id` is the absent sentinel and its type is
standby, the stored upstream id is the value returned by
`get_master_node_id` on the same connection; for the absent sentinel with any
other type the literal NULL is stored; a non-absent `upstream_node_id` is
stored as given. -/
theorem C8_upstream_resolution (node_info : t_node_info) (res : PGres) :
    create_node_record_upstream node_info (get_master_node_id res) =
      update_node_record_upstream node_info (get_master_node_id res) ∧
    (node_info.upstream_node_id = NO_UPSTREAM_NODE →
      node_info.type = t_server_type.STANDBY →
      create_node_record_upstream node_info (get_master_node_id res) =
        toString (get_master_node_id res)) ∧
    (node_info.upstream_node_id = NO_UPSTREAM_NODE →
      node_info.type ≠ t_server_type.STANDBY →
      create_node_record_upstream node_info (get_master_node_id res) = "NULL") ∧
    (node_info.upstream_node_id ≠ NO_UPSTREAM_NODE →
      create_node_record_upstream node_info (get_master_node_id res) =
        toString node_info.upstream_node_id) :=
  ⟨rfl,
   fun h1 h2 => by simp [create_node_record_upstream, h1, h2],
   fun h1 h2 => by simp [create_node_record_upstream, h1, h2],
   fun h1 => by simp [create_node_record_upstream, h1]⟩

/-- C8 witness: a standby with the absent sentinel gets the id returned by
`get_master_node_id` (here 3); a primary-typed record with the sentinel gets
NULL; an explicit upstream id of 7 is stored as given. -/
theorem C8_upstream_resolution_witness :
    create_node_record_upstream
      { node_id := 5, type := t_server_type.STANDBY, upstream_node_id := NO_UPSTREAM_NODE,
        priority := 100, active := true }
      (get_master_node_id { status := QueryStatus.tuplesOK, rows := [["3"]] }) = toString
        (get_master_node_id { status := QueryStatus.tuplesOK, rows := [["3"]] }) ∧
    create_node_record_upstream
      { node_id := 5, type := t_server_type.MASTER, upstream_node_id := NO_UPSTREAM_NODE,
        priority := 100, active := true }
      (get_master_node_id { status := QueryStatus.tuplesOK, rows := [["3"]] }) = "NULL" ∧
    create_node_record_upstream
      { node_id := 5, type := t_server_type.STANDBY, upstream_node_id := 7,
        priority := 100, active := true }
      (get_master_node_id { status := QueryStatus.tuplesOK, rows := [["3"]] }) =
      toString (7 : Int) :=
  ⟨(C8_upstream_resolution
      { node_id := 5, type := t_server_type.STANDBY, upstream_node_id := NO_UPSTREAM_NODE,
        priority := 100, active := true }
      { status := QueryStatus.tuplesOK, rows := [["3"]] }).2.1 rfl rfl,
   (C8_upstream_resolution
      { node_id := 5, type := t_server_type.MASTER, upstream_node_id := NO_UPSTREAM_NODE,
        priority := 100, active := true }
      { status := QueryStatus.tuplesOK, rows := [["3"]] }).2.2.1 rfl (by decide),
   (C8_upstream_resolution
      { node_id := 5, type := t_server_type.STANDBY, upstream_node_id := 7,
        priority := 100, active := true }
      { status := QueryStatus.tuplesOK, rows := [["3"]] }).2.2.2 (by decide)⟩
